import Mathlib

/-!
Shallow embedding of the Cosmic Voyager arcade-shooter core
(src/types.ts, src/utils/geometry.ts, src/App.tsx) and proofs of the
frozen claims about its per-frame simulation.

Numbers are modelled as real numbers (the source works on JS floats and
uses Math.sqrt, Math.PI, Math.cos, Math.sin, Math.atan2).  Calls to
Math.random and other ambient inputs (held keys, performance.now, the
frame delta) are modelled as oracle streams supplied in an Env record:
every concrete run of the source corresponds to some Env value, and all
universally quantified theorems hold for every Env.
-/

noncomputable section
open Classical

/-- 2D vector of screen-space coordinates (src/types.ts). -/
structure Vector2D where
  x : ℝ
  y : ℝ

/-- Shared shape of all movable entities (src/types.ts GameObject). -/
structure GameObject where
  id : String
  position : Vector2D
  velocity : Vector2D
  radius : ℝ

/-- Player entity (src/types.ts Player extends GameObject). -/
structure Player where
  id : String
  position : Vector2D
  velocity : Vector2D
  radius : ℝ
  health : ℝ
  maxHealth : ℝ
  rotation : ℝ

/-- Enemy archetypes (src/types.ts EnemyType). -/
inductive EnemyType where
  | Meteor
  | Saucer
  | BlackHole
  | Mothership
deriving DecidableEq

/-- Enemy entity (src/types.ts Enemy extends GameObject); rotation is the
optional meteor spin state. -/
structure Enemy where
  id : String
  position : Vector2D
  velocity : Vector2D
  radius : ℝ
  type : EnemyType
  health : ℝ
  maxHealth : ℝ
  rotation : Option ℝ

/-- Laser entity (src/types.ts Laser extends GameObject). -/
structure Laser where
  id : String
  position : Vector2D
  velocity : Vector2D
  radius : ℝ
  isPlayerLaser : Bool

/-- Particle entity (src/types.ts Particle extends GameObject). -/
structure Particle where
  id : String
  position : Vector2D
  velocity : Vector2D
  radius : ℝ
  life : ℝ
  maxLife : ℝ
  color : String
  startSize : ℝ

/-- Game status state machine (src/types.ts GameStatus). -/
inductive GameStatus where
  | StartScreen
  | Playing
  | GameOver
deriving DecidableEq

/-- View of a player as the GameObject capability (TS structural subtyping). -/
def Player.obj (p : Player) : GameObject := ⟨p.id, p.position, p.velocity, p.radius⟩

/-- View of an enemy as the GameObject capability. -/
def Enemy.obj (e : Enemy) : GameObject := ⟨e.id, e.position, e.velocity, e.radius⟩

/-- View of a laser as the GameObject capability. -/
def Laser.obj (l : Laser) : GameObject := ⟨l.id, l.position, l.velocity, l.radius⟩

/-- View of a particle as the GameObject capability. -/
def Particle.obj (p : Particle) : GameObject := ⟨p.id, p.position, p.velocity, p.radius⟩

/-- Euclidean distance between two positions (src/utils/geometry.ts distance). -/
def distance (p1 p2 : Vector2D) : ℝ :=
  Real.sqrt ((p1.x - p2.x) ^ 2 + (p1.y - p2.y) ^ 2)

/-- Circle-overlap test (src/utils/geometry.ts checkCollision). -/
def checkCollision (obj1 obj2 : GameObject) : Prop :=
  distance obj1.position obj2.position < obj1.radius + obj2.radius

/-- Uniform value in a range (src/utils/geometry.ts randomBetween); the
Math.random() sample is passed explicitly as the oracle value roll. -/
def randomBetween (roll min max : ℝ) : ℝ :=
  roll * (max - min) + min

/-- Gameplay constants from src/App.tsx. -/
def PLAYER_SIZE : ℝ := 20

def PLAYER_THRUST : ℝ := 0.1

def PLAYER_TURN_SPEED : ℝ := 0.1

def PLAYER_MAX_SPEED : ℝ := 5

def PLAYER_FRICTION : ℝ := 0.99

def PLAYER_LASER_SPEED : ℝ := 7

def PLAYER_SHOOT_COOLDOWN : ℝ := 200

def PLAYER_MAX_HEALTH : ℝ := 100

def ENEMY_LASER_SPEED : ℝ := 5

/-- atan2 of the source (Math.atan2(y, x)): the argument of the complex
number x + iy. -/
def atan2 (y x : ℝ) : ℝ := Complex.arg ⟨x, y⟩

/-- Discrete cues emitted during a tick: audio triggers (playSound calls)
and the deferred status change scheduled by setTimeout, recorded with its
delay in milliseconds. -/
inductive Cue where
  | thrust
  | laser
  | enemyLaser
  | explosion
  | gameOverScheduled (delayMs : ℝ)

/-- Ambient inputs of one tick: the frame delta, the held-key set, the
clock, and one oracle value (or stream) per Math.random() call site of
src/App.tsx.  A well-formed sample lies in [0, 1). -/
structure Env where
  deltaTime : ℝ
  keys : List String
  now : ℝ
  playerLaserId : String
  typeRoll : ℝ
  radiusRoll : ℝ
  sideRoll : ℝ
  posRoll : ℝ
  velRollX : ℝ
  velRollY : ℝ
  enemyId : String
  fireRoll : ℕ → ℝ
  laserId : ℕ → String
  prand : ℕ → ℝ × ℝ × ℝ × ℝ
  pid : ℕ → String
  trand : ℕ → ℝ × ℝ × ℝ × ℝ
  tid : ℕ → String

/-- The simulation state owned by the orchestrator (the refs and the two
React state cells score and gameStatus of src/App.tsx). -/
structure GameState where
  player : Option Player
  enemies : List Enemy
  lasers : List Laser
  particles : List Particle
  score : ℝ
  status : GameStatus
  lastShotTime : ℝ

/-- Working state threaded through the blocks of one updateAndDraw call:
the mutable collections plus the cues emitted so far and the count pctr of
particles created by createExplosion this tick (indexing its Math.random
samples in env.prand / env.pid). -/
structure TS where
  player : Option Player
  enemies : List Enemy
  lasers : List Laser
  particles : List Particle
  score : ℝ
  lastShotTime : ℝ
  cues : List Cue
  pctr : ℕ

/-- Opening a tick: collections from the game state, no cues yet. -/
def initTS (s : GameState) : TS :=
  ⟨s.player, s.enemies, s.lasers, s.particles, s.score, s.lastShotTime, [], 0⟩

/-- createExplosion of src/App.tsx: pushes count particles (the JS loop
for (i = 0; i < count; i++) runs ceil(count) times for a real count) at a
point, each with randomized velocity in [-3,3] per axis, randomized radius
up to size, life fixed at 1 second, and randomized startSize. -/
def createExplosion (env : Env) (ctr : ℕ) (position : Vector2D) (count : ℝ)
    (color : String) (size : ℝ) : List Particle × ℕ :=
  let n := ⌈count⌉₊
  ((List.range n).map (fun i =>
    let r := env.prand (ctr + i)
    { id := env.pid (ctr + i)
      position := position
      velocity := ⟨randomBetween r.1 (-3) 3, randomBetween r.2.1 (-3) 3⟩
      radius := r.2.2.1 * size
      color := color
      life := 1
      maxLife := 1
      startSize := r.2.2.2 * size + 1 }), ctr + n)

/-- resetGame of src/App.tsx: player re-created at the viewport center
facing up-screen, collections cleared, score zeroed.  gameStatus and
lastShotTimeRef are not touched by resetGame. -/
def resetGame (width height : ℝ) (s : GameState) : GameState :=
  { player := some
      { id := "player"
        position := ⟨width / 2, height / 2⟩
        velocity := ⟨0, 0⟩
        radius := PLAYER_SIZE / 2
        rotation := -(Real.pi / 2)
        health := PLAYER_MAX_HEALTH
        maxHealth := PLAYER_MAX_HEALTH }
    enemies := []
    lasers := []
    particles := []
    score := 0
    status := s.status
    lastShotTime := s.lastShotTime }

/-- startGame of src/App.tsx: reset then status Playing. -/
def startGame (width height : ℝ) (s : GameState) : GameState :=
  { resetGame width height s with status := GameStatus.Playing }

/-- The two thruster exhaust particles pushed per thrusting tick
(src/App.tsx lines 102-119); v1 is the player velocity right after the
thrust acceleration was applied, as read by the source. -/
def thrusterParticles (env : Env) (player : Player) (v1 : Vector2D) : List Particle :=
  (List.range 2).map (fun i =>
    let r := env.trand i
    let angle := player.rotation + Real.pi + randomBetween r.1 (-0.3) 0.3
    { id := env.tid i
      position := player.position
      velocity := ⟨v1.x + Real.cos angle * 2, v1.y + Real.sin angle * 2⟩
      radius := randomBetween r.2.1 1 3
      color := (["#ffc83d", "#ff7800", "#ffffff"].getD (⌊r.2.2.1 * 3⌋).toNat "#ffffff")
      life := 0.5
      maxLife := 0.5
      startSize := randomBetween r.2.2.2 2 4 })

/-- handlePlayerControls of src/App.tsx: thrust (with cue and exhaust
particles), turning, speed clamp, friction, and cooldown-gated firing, in
source order; a no-op when no player exists (line 94 guard). -/
def handlePlayerControls (env : Env) (ts : TS) : TS :=
  match ts.player with
  | none => ts
  | some player =>
    let thrusting := env.keys.contains "ArrowUp" || env.keys.contains "KeyW"
    let v1 : Vector2D :=
      if thrusting then
        ⟨player.velocity.x + Real.cos player.rotation * PLAYER_THRUST,
         player.velocity.y + Real.sin player.rotation * PLAYER_THRUST⟩
      else player.velocity
    let cues1 := if thrusting then ts.cues ++ [Cue.thrust] else ts.cues
    let parts1 := if thrusting then thrusterParticles env player v1 else []
    let rot1 :=
      if env.keys.contains "ArrowLeft" || env.keys.contains "KeyA" then
        player.rotation - PLAYER_TURN_SPEED
      else player.rotation
    let rot2 :=
      if env.keys.contains "ArrowRight" || env.keys.contains "KeyD" then
        rot1 + PLAYER_TURN_SPEED
      else rot1
    let speed := Real.sqrt (v1.x ^ 2 + v1.y ^ 2)
    let v2 : Vector2D :=
      if speed > PLAYER_MAX_SPEED then
        ⟨v1.x / speed * PLAYER_MAX_SPEED, v1.y / speed * PLAYER_MAX_SPEED⟩
      else v1
    let v3 : Vector2D := ⟨v2.x * PLAYER_FRICTION, v2.y * PLAYER_FRICTION⟩
    let firing :=
      env.keys.contains "Space" && decide (env.now - ts.lastShotTime > PLAYER_SHOOT_COOLDOWN)
    let newLasers : List Laser :=
      if firing then
        [{ id := env.playerLaserId
           position := player.position
           velocity := ⟨Real.cos rot2 * PLAYER_LASER_SPEED, Real.sin rot2 * PLAYER_LASER_SPEED⟩
           radius := 2
           isPlayerLaser := true }]
      else []
    { ts with
      player := some { player with velocity := v3, rotation := rot2 }
      particles := ts.particles ++ parts1
      lasers := ts.lasers ++ newLasers
      cues := cues1 ++ (if firing then [Cue.laser] else [])
      lastShotTime := if firing then env.now else ts.lastShotTime }

/-- updatePosition of src/App.tsx (lines 185-193): advance position by
velocity, then wrap each coordinate that exceeds the viewport by more than
the radius to the opposite edge (two sequential ifs per axis). -/
def updatePosition (width height : ℝ) (obj : GameObject) : GameObject :=
  let x0 := obj.position.x + obj.velocity.x
  let y0 := obj.position.y + obj.velocity.y
  let x1 := if x0 < -obj.radius then width + obj.radius else x0
  let x2 := if x1 > width + obj.radius then -obj.radius else x1
  let y1 := if y0 < -obj.radius then height + obj.radius else y0
  let y2 := if y1 > height + obj.radius then -obj.radius else y1
  { obj with position := ⟨x2, y2⟩ }

/-- updatePosition applied to a player. -/
def Player.updatePos (width height : ℝ) (p : Player) : Player :=
  { p with position := (updatePosition width height p.obj).position }

/-- updatePosition applied to an enemy. -/
def Enemy.updatePos (width height : ℝ) (e : Enemy) : Enemy :=
  { e with position := (updatePosition width height e.obj).position }

/-- updatePosition applied to a laser. -/
def Laser.updatePos (width height : ℝ) (l : Laser) : Laser :=
  { l with position := (updatePosition width height l.obj).position }

/-- updatePosition applied to a particle. -/
def Particle.updatePos (width height : ℝ) (p : Particle) : Particle :=
  { p with position := (updatePosition width height p.obj).position }

/-- Block of src/App.tsx lines 196-214: if a player exists, apply controls
and then move the player. -/
def playerPhase (env : Env) (width height : ℝ) (ts : TS) : TS :=
  match ts.player with
  | none => ts
  | some _ =>
    let ts1 := handlePlayerControls env ts
    { ts1 with player := ts1.player.map (Player.updatePos width height) }

/-- The laser pruning filter of src/App.tsx line 217: a laser is kept iff
its position is strictly inside the viewport. -/
def pruneLasers (width height : ℝ) (lasers : List Laser) : List Laser :=
  lasers.filter (fun l => decide (l.position.x > 0 ∧ l.position.x < width ∧
    l.position.y > 0 ∧ l.position.y < height))

/-- Block of src/App.tsx lines 216-224: prune lasers that left the strict
viewport interior, then move the survivors (updatePosition wraps). -/
def laserPhase (width height : ℝ) (ts : TS) : TS :=
  { ts with lasers := (pruneLasers width height ts.lasers).map (Laser.updatePos width height) }

/-- The particle pruning filter of src/App.tsx line 227: a particle is
kept iff its life is still positive. -/
def pruneParticles (particles : List Particle) : List Particle :=
  particles.filter (fun p => decide (p.life > 0))

/-- Per-particle update of src/App.tsx lines 228-231: decrement life by
deltaTime/1000, move, recompute radius from the life ratio. -/
def particleStep (env : Env) (width height : ℝ) (p : Particle) : Particle :=
  let p1 : Particle := { p with life := p.life - env.deltaTime / 1000 }
  let p2 := p1.updatePos width height
  { p2 with radius := p2.startSize * (p2.life / p2.maxLife) }

/-- Block of src/App.tsx lines 226-241: prune dead particles, then update
each survivor. -/
def particlePhase (env : Env) (width height : ℝ) (ts : TS) : TS :=
  { ts with particles := (pruneParticles ts.particles).map (particleStep env width height) }

/-- Block of src/App.tsx lines 243-296: move every enemy; a meteor also
accumulates its spin (rotation = (rotation || 0) + 0.01). -/
def enemyMovePhase (width height : ℝ) (ts : TS) : TS :=
  { ts with enemies := ts.enemies.map (fun e =>
      let e1 := e.updatePos width height
      if e1.type = EnemyType.Meteor then
        { e1 with rotation := some ((e1.rotation.getD 0) + 0.01) }
      else e1) }

/-- The enemy built by the spawner of src/App.tsx lines 300-331, from the
tick's random samples and the score read at spawn time. -/
def spawnEnemy (env : Env) (score width height : ℝ) : Enemy :=
  let typeRoll := env.typeRoll
  let radius0 := randomBetween env.radiusRoll 15 40
  let t3 : EnemyType × ℝ × ℝ :=
    if score > 1000 ∧ typeRoll > 0.95 then (EnemyType.Mothership, 60, 50)
    else if score > 200 ∧ typeRoll > 0.7 then (EnemyType.Saucer, 20, 10)
    else (EnemyType.Meteor, radius0, radius0 / 2)
  let radius := t3.2.1
  let health := t3.2.2
  let side := ⌊env.sideRoll * 4⌋
  let position : Vector2D :=
    if side = 0 then ⟨randomBetween env.posRoll 0 width, -radius⟩
    else if side = 1 then ⟨width + radius, randomBetween env.posRoll 0 height⟩
    else if side = 2 then ⟨randomBetween env.posRoll 0 width, height + radius⟩
    else ⟨-radius, randomBetween env.posRoll 0 height⟩
  { id := env.enemyId
    position := position
    velocity := ⟨randomBetween env.velRollX (-1) 1, randomBetween env.velRollY (-1) 1⟩
    radius := radius
    type := t3.1
    health := health
    maxHealth := health
    rotation := none }

/-- Block of src/App.tsx lines 298-332: one spawn decision per tick; an
enemy is pushed only when the live count is below 5 + floor(score/500). -/
def spawnPhase (env : Env) (width height : ℝ) (ts : TS) : TS :=
  if (ts.enemies.length : ℝ) < 5 + (⌊ts.score / 500⌋ : ℤ) then
    { ts with enemies := ts.enemies ++ [spawnEnemy env ts.score width height] }
  else ts

/-- The enemy laser fired by a saucer or mothership of src/App.tsx lines
339-349, aimed at the current player position. -/
def enemyFiredLaser (env : Env) (i : ℕ) (e : Enemy) (pl : Player) : Laser :=
  let angle := atan2 (pl.position.y - e.position.y) (pl.position.x - e.position.x)
  { id := env.laserId i
    position := e.position
    velocity := ⟨Real.cos angle * ENEMY_LASER_SPEED, Real.sin angle * ENEMY_LASER_SPEED⟩
    radius := 3
    isPlayerLaser := false }

/-- Body of the enemy-AI forEach of src/App.tsx lines 335-352 for the
enemy at index i: a saucer or mothership whose roll passes fires at the
player, only when a player exists. -/
def aiStep (env : Env) (acc : TS) (i : ℕ) (e : Enemy) : TS :=
  if e.type = EnemyType.Saucer ∨ e.type = EnemyType.Mothership then
    if env.fireRoll i < 0.01 then
      match acc.player with
      | some pl =>
        { acc with
          cues := acc.cues ++ [Cue.enemyLaser]
          lasers := acc.lasers ++ [enemyFiredLaser env i e pl] }
      | none => acc
    else acc
  else acc

/-- The enemy-AI forEach, walking the enemy list with its index. -/
def aiGo (env : Env) : List Enemy → ℕ → TS → TS
  | [], _, acc => acc
  | e :: rest, i, acc => aiGo env rest (i + 1) (aiStep env acc i e)

/-- Block of src/App.tsx lines 334-352: per enemy (in order), a saucer or
mothership fires at the player with probability 0.01, only when a player
exists. -/
def aiPhase (env : Env) (ts : TS) : TS :=
  aiGo env ts.enemies 0 ts

/-- Result of sweeping one enemy against the current laser working set
(inner loop of src/App.tsx lines 360-371). -/
structure SweepOut where
  enemy : Enemy
  destroyed : Bool
  lasers : List Laser
  particles : List Particle
  ctr : ℕ

/-- Inner loop of src/App.tsx lines 360-371: each player laser overlapping
the enemy deals 5 damage, spawns a small cyan burst, and is consumed (not
pushed to newLasers); the destroyed flag is set when health drops to 0 or
below. -/
def enemySweep (env : Env) : List Laser → Enemy → Bool → ℕ → SweepOut
  | [], e, destroyed, ctr => ⟨e, destroyed, [], [], ctr⟩
  | l :: rest, e, destroyed, ctr =>
    if l.isPlayerLaser = true ∧ checkCollision l.obj e.obj then
      let e1 : Enemy := { e with health := e.health - 5 }
      let pr := createExplosion env ctr l.position 5 "#00f2ff" 2
      let d1 := if e1.health ≤ 0 then true else destroyed
      let r := enemySweep env rest e1 d1 pr.2
      ⟨r.enemy, r.destroyed, r.lasers, pr.1 ++ r.particles, r.ctr⟩
    else
      let r := enemySweep env rest e destroyed ctr
      ⟨r.enemy, r.destroyed, l :: r.lasers, r.particles, r.ctr⟩

/-- Result of the lasers-vs-enemies resolution (src/App.tsx lines
354-382): surviving enemies (newEnemies), the surviving laser working set,
the total score delta, the burst particles, the cues, and — as an
observational record for stating properties — the enemies that took the
destroyed branch, in processing order. -/
structure LEOut where
  enemies : List Enemy
  lasers : List Laser
  scoreDelta : ℝ
  particles : List Particle
  cues : List Cue
  destroyed : List Enemy
  ctr : ℕ

/-- Outer loop of src/App.tsx lines 354-382: process each enemy against
the evolving laser working set; a destroyed enemy emits the explosion cue,
a large burst colored by its type, and a score delta of
floor(maxHealth * 5); a surviving enemy is pushed to newEnemies. -/
def lasersVsEnemies (env : Env) : List Enemy → List Laser → ℕ → LEOut
  | [], lasers, ctr => ⟨[], lasers, 0, [], [], [], ctr⟩
  | e :: rest, lasers, ctr =>
    let s := enemySweep env lasers e false ctr
    if s.destroyed = true then
      let boom := createExplosion env s.ctr s.enemy.position s.enemy.radius
        (if s.enemy.type = EnemyType.Saucer then "#8338ec" else "#a9a9a9") (s.enemy.radius / 2)
      let r := lasersVsEnemies env rest s.lasers boom.2
      ⟨r.enemies, r.lasers, ((⌊s.enemy.maxHealth * 5⌋ : ℤ) : ℝ) + r.scoreDelta,
        s.particles ++ boom.1 ++ r.particles, Cue.explosion :: r.cues,
        s.enemy :: r.destroyed, r.ctr⟩
    else
      let r := lasersVsEnemies env rest s.lasers s.ctr
      ⟨s.enemy :: r.enemies, r.lasers, r.scoreDelta, s.particles ++ r.particles,
        r.cues, r.destroyed, r.ctr⟩

/-- Block of src/App.tsx lines 354-382 as a state transformer: resolve
player lasers against enemies, accumulate the score deltas (the setScore
functional updates), append burst particles and cues. -/
def laserEnemyPhase (env : Env) (ts : TS) : TS :=
  let r := lasersVsEnemies env ts.enemies ts.lasers ts.pctr
  { ts with
    enemies := r.enemies
    lasers := r.lasers
    score := ts.score + r.scoreDelta
    particles := ts.particles ++ r.particles
    cues := ts.cues ++ r.cues
    pctr := r.ctr }

/-- Block of src/App.tsx lines 385-393: on direct overlap with any enemy
the player loses 20 health, a burst spawns at that enemy's position, that
enemy (by id) is filtered out of the collection, and the loop breaks after
the first hit; a no-op when no player exists. -/
def playerVsEnemiesPhase (env : Env) (ts : TS) : TS :=
  match ts.player with
  | none => ts
  | some p =>
    match ts.enemies.find? (fun e => decide (checkCollision p.obj e.obj)) with
    | none => ts
    | some e =>
      let boom := createExplosion env ts.pctr e.position e.radius "#ffbe0b" (e.radius / 2)
      { ts with
        player := some { p with health := p.health - 20 }
        enemies := ts.enemies.filter (fun e2 => decide (¬e2.id = e.id))
        particles := ts.particles ++ boom.1
        pctr := boom.2 }

/-- Inner loop of src/App.tsx lines 395-403: each non-player laser
overlapping the player deals 10 damage, spawns a small red burst, and is
consumed; every other laser is kept. -/
def playerLaserSweep (env : Env) : List Laser → Player → ℕ → Player × List Laser × List Particle × ℕ
  | [], p, ctr => (p, [], [], ctr)
  | l :: rest, p, ctr =>
    if l.isPlayerLaser = false ∧ checkCollision l.obj p.obj then
      let p1 : Player := { p with health := p.health - 10 }
      let pr := createExplosion env ctr l.position 10 "#ff4136" 3
      let r := playerLaserSweep env rest p1 pr.2
      (r.1, r.2.1, pr.1 ++ r.2.2.1, r.2.2.2)
    else
      let r := playerLaserSweep env rest p ctr
      (r.1, l :: r.2.1, r.2.2.1, r.2.2.2)

/-- Block of src/App.tsx lines 395-404 as a state transformer; a no-op
when no player exists. -/
def lasersVsPlayerPhase (env : Env) (ts : TS) : TS :=
  match ts.player with
  | none => ts
  | some p =>
    let r := playerLaserSweep env ts.lasers p ts.pctr
    { ts with
      player := some r.1
      lasers := r.2.1
      particles := ts.particles ++ r.2.2.1
      pctr := r.2.2.2 }

/-- Block of src/App.tsx lines 406-411: if the player's health is 0 or
below, emit the explosion cue, spawn a large cyan burst, remove the player
entity, and schedule the GameOver transition after a fixed 1000 ms delay
(the setTimeout); the status itself is not changed during the tick. -/
def deathPhase (env : Env) (ts : TS) : TS :=
  match ts.player with
  | none => ts
  | some p =>
    if p.health ≤ 0 then
      let boom := createExplosion env ts.pctr p.position 40 "#00f2ff" 20
      { ts with
        player := none
        particles := ts.particles ++ boom.1
        cues := ts.cues ++ [Cue.explosion, Cue.gameOverScheduled 1000]
        pctr := boom.2 }
    else ts

/-- All blocks of updateAndDraw before the player death check, in source
order. -/
def preDeath (env : Env) (width height : ℝ) (ts : TS) : TS :=
  lasersVsPlayerPhase env
    (playerVsEnemiesPhase env
      (laserEnemyPhase env
        (aiPhase env
          (spawnPhase env width height
            (enemyMovePhase width height
              (particlePhase env width height
                (laserPhase width height
                  (playerPhase env width height ts))))))))

/-- updateAndDraw of src/App.tsx (the advance tick entry point): run all
simulation blocks in source order over the working state and return the
updated game state together with the cues emitted during the tick.  The
game status is never changed synchronously (the GameOver transition is
only scheduled). -/
def updateAndDraw (env : Env) (width height : ℝ) (s : GameState) : GameState × List Cue :=
  let ts := deathPhase env (preDeath env width height (initTS s))
  (⟨ts.player, ts.enemies, ts.lasers, ts.particles, ts.score, s.status, ts.lastShotTime⟩,
    ts.cues)

/-! ## Helper lemmas -/

/-- distance is symmetric in its arguments. -/
lemma distance_comm (p q : Vector2D) : distance p q = distance q p := by
  unfold distance
  congr 1
  ring

/-- The sqrt-based collision test, rephrased without the square root. -/
lemma checkCollision_iff (a b : GameObject) :
    checkCollision a b ↔ 0 < a.radius + b.radius ∧
      (a.position.x - b.position.x) ^ 2 + (a.position.y - b.position.y) ^ 2 <
        (a.radius + b.radius) ^ 2 := by
  unfold checkCollision distance
  constructor
  · intro h
    have hr : 0 < a.radius + b.radius := lt_of_le_of_lt (Real.sqrt_nonneg _) h
    exact ⟨hr, (Real.sqrt_lt' hr).mp h⟩
  · rintro ⟨hr, h⟩
    exact (Real.sqrt_lt' hr).mpr h

/-- updatePosition changes only the position. -/
lemma updatePosition_radius (width height : ℝ) (obj : GameObject) :
    (updatePosition width height obj).radius = obj.radius := rfl

/-- One updatePosition step lands each coordinate within the wrap band
[-radius, extent+radius]. -/
lemma updatePosition_range (width height : ℝ) (obj : GameObject)
    (hw : 0 ≤ width) (hh : 0 ≤ height) (hr : 0 ≤ obj.radius) :
    -obj.radius ≤ (updatePosition width height obj).position.x ∧
    (updatePosition width height obj).position.x ≤ width + obj.radius ∧
    -obj.radius ≤ (updatePosition width height obj).position.y ∧
    (updatePosition width height obj).position.y ≤ height + obj.radius := by
  unfold updatePosition
  dsimp only
  split_ifs <;> constructor <;> try constructor
  all_goals try constructor
  all_goals linarith

/-! ## C9: collision symmetry -/

/-- C9: checkCollision is symmetric, and checkCollision(a,b) holds exactly
when the Euclidean distance between the positions is strictly less than
the sum of the radii. -/
theorem checkCollision_symm (a b : GameObject) :
    (checkCollision a b ↔ checkCollision b a) ∧
    (checkCollision a b ↔ distance a.position b.position < a.radius + b.radius) := by
  constructor
  · unfold checkCollision
    rw [distance_comm, add_comm]
  · exact Iff.rfl

/-! ## C6: reset is idempotent -/

/-- C6: resetGame is idempotent for a fixed viewport, and the reset state
has score 0, empty enemy/laser/particle collections, and a player at the
viewport center with zero velocity, rotation -pi/2, and full health. -/
theorem resetGame_idem (width height : ℝ) (s : GameState) :
    resetGame width height (resetGame width height s) = resetGame width height s ∧
    (resetGame width height s).score = 0 ∧
    (resetGame width height s).enemies = [] ∧
    (resetGame width height s).lasers = [] ∧
    (resetGame width height s).particles = [] ∧
    (resetGame width height s).player = some
      { id := "player"
        position := ⟨width / 2, height / 2⟩
        velocity := ⟨0, 0⟩
        radius := PLAYER_SIZE / 2
        rotation := -(Real.pi / 2)
        health := PLAYER_MAX_HEALTH
        maxHealth := PLAYER_MAX_HEALTH } :=
  ⟨rfl, rfl, rfl, rfl, rfl, rfl⟩

/-! ## C2: screen-wrap invariant -/

/-- C2: for any wrap-eligible object, after every motion step (any number
of them) each coordinate lies within [-radius, extent+radius]; a
coordinate that exceeds a viewport edge by more than the radius is
teleported to the opposite edge; and a spawned enemy starts within the
same band. -/
theorem updatePosition_wrap (width height : ℝ) (obj : GameObject)
    (hw : 0 ≤ width) (hh : 0 ≤ height) (hr : 0 ≤ obj.radius) :
    (∀ n : ℕ, 1 ≤ n →
      -obj.radius ≤ ((updatePosition width height)^[n] obj).position.x ∧
      ((updatePosition width height)^[n] obj).position.x ≤ width + obj.radius ∧
      -obj.radius ≤ ((updatePosition width height)^[n] obj).position.y ∧
      ((updatePosition width height)^[n] obj).position.y ≤ height + obj.radius) ∧
    (obj.position.x + obj.velocity.x < -obj.radius →
      (updatePosition width height obj).position.x = width + obj.radius) ∧
    (obj.position.x + obj.velocity.x > width + obj.radius →
      (updatePosition width height obj).position.x = -obj.radius) ∧
    (obj.position.y + obj.velocity.y < -obj.radius →
      (updatePosition width height obj).position.y = height + obj.radius) ∧
    (obj.position.y + obj.velocity.y > height + obj.radius →
      (updatePosition width height obj).position.y = -obj.radius) ∧
    (∀ env : Env, ∀ score : ℝ, 0 ≤ env.posRoll → env.posRoll ≤ 1 → 0 ≤ env.radiusRoll →
      -(spawnEnemy env score width height).radius ≤ (spawnEnemy env score width height).position.x ∧
      (spawnEnemy env score width height).position.x ≤ width + (spawnEnemy env score width height).radius ∧
      -(spawnEnemy env score width height).radius ≤ (spawnEnemy env score width height).position.y ∧
      (spawnEnemy env score width height).position.y ≤ height + (spawnEnemy env score width height).radius) := by
  refine ⟨?_, ?_, ?_, ?_, ?_, ?_⟩
  · intro n hn
    obtain ⟨m, rfl⟩ : ∃ m, n = m + 1 := ⟨n - 1, by omega⟩
    have hrad : ∀ k : ℕ, ((updatePosition width height)^[k] obj).radius = obj.radius := by
      intro k
      induction k with
      | zero => rfl
      | succ j ih => rw [Function.iterate_succ_apply', updatePosition_radius]; exact ih
    rw [Function.iterate_succ_apply']
    have h := updatePosition_range width height ((updatePosition width height)^[m] obj)
      hw hh (by rw [hrad m]; exact hr)
    rw [hrad m] at h
    exact h
  · intro h
    simp only [updatePosition]
    split_ifs <;> linarith
  · intro h
    simp only [updatePosition]
    split_ifs <;> linarith
  · intro h
    simp only [updatePosition]
    split_ifs <;> linarith
  · intro h
    simp only [updatePosition]
    split_ifs <;> linarith
  · intro env score h0 h1 h2
    have hx : 0 ≤ env.posRoll * (width - 0) + 0 := by nlinarith
    have hx2 : env.posRoll * (width - 0) + 0 ≤ width := by nlinarith
    have hy : 0 ≤ env.posRoll * (height - 0) + 0 := by nlinarith
    have hy2 : env.posRoll * (height - 0) + 0 ≤ height := by nlinarith
    have h25 : (0:ℝ) ≤ env.radiusRoll * (40 - 15) := by nlinarith
    simp only [spawnEnemy, randomBetween]
    split_ifs <;> refine ⟨?_, ?_, ?_, ?_⟩ <;> simp only [] <;> linarith

/-- Concrete object for the C2 witness. -/
def c2Obj : GameObject := ⟨"c2", ⟨300, -50⟩, ⟨10, 0⟩, 5⟩

/-- Witness instantiating the screen-wrap theorem at a concrete object and
viewport. -/
theorem updatePosition_wrap_witness :
    (0:ℝ) ≤ 200 ∧ (0:ℝ) ≤ 100 ∧ (0:ℝ) ≤ c2Obj.radius ∧
    (-c2Obj.radius ≤ ((updatePosition 200 100)^[1] c2Obj).position.x ∧
      ((updatePosition 200 100)^[1] c2Obj).position.x ≤ 200 + c2Obj.radius ∧
      -c2Obj.radius ≤ ((updatePosition 200 100)^[1] c2Obj).position.y ∧
      ((updatePosition 200 100)^[1] c2Obj).position.y ≤ 100 + c2Obj.radius) :=
  ⟨by norm_num, by norm_num, by norm_num [c2Obj],
    (updatePosition_wrap 200 100 c2Obj (by norm_num) (by norm_num)
      (by norm_num [c2Obj])).1 1 (by norm_num)⟩

/-! ## Player-absent no-op lemmas -/

/-- Controls are a no-op without a player. -/
lemma handlePlayerControls_none (env : Env) (ts : TS) (h : ts.player = none) :
    handlePlayerControls env ts = ts := by
  unfold handlePlayerControls
  rw [h]

/-- The player block is a no-op without a player. -/
lemma playerPhase_none (env : Env) (width height : ℝ) (ts : TS) (h : ts.player = none) :
    playerPhase env width height ts = ts := by
  unfold playerPhase
  rw [h]

/-- One AI step is a no-op without a player. -/
lemma aiStep_none (env : Env) (acc : TS) (i : ℕ) (e : Enemy) (h : acc.player = none) :
    aiStep env acc i e = acc := by
  unfold aiStep
  rw [h]
  split_ifs <;> rfl

/-- The AI walk is a no-op without a player. -/
lemma aiGo_none (env : Env) (l : List Enemy) (i : ℕ) (acc : TS) (h : acc.player = none) :
    aiGo env l i acc = acc := by
  induction l generalizing i acc with
  | nil => rfl
  | cons e rest ih =>
    unfold aiGo
    rw [aiStep_none env acc i e h]
    exact ih _ _ h

/-- The AI phase is a no-op without a player: no enemy fires. -/
lemma aiPhase_none (env : Env) (ts : TS) (h : ts.player = none) :
    aiPhase env ts = ts :=
  aiGo_none env ts.enemies 0 ts h

/-- The player-vs-enemies block is a no-op without a player. -/
lemma playerVsEnemiesPhase_none (env : Env) (ts : TS) (h : ts.player = none) :
    playerVsEnemiesPhase env ts = ts := by
  unfold playerVsEnemiesPhase
  rw [h]

/-- The enemy-lasers-vs-player block is a no-op without a player. -/
lemma lasersVsPlayerPhase_none (env : Env) (ts : TS) (h : ts.player = none) :
    lasersVsPlayerPhase env ts = ts := by
  unfold lasersVsPlayerPhase
  rw [h]

/-- The death check is a no-op without a player. -/
lemma deathPhase_none (env : Env) (ts : TS) (h : ts.player = none) :
    deathPhase env ts = ts := by
  unfold deathPhase
  rw [h]

/-- laserPhase does not touch the player. -/
lemma laserPhase_player (width height : ℝ) (ts : TS) :
    (laserPhase width height ts).player = ts.player := rfl

/-- particlePhase does not touch the player. -/
lemma particlePhase_player (env : Env) (width height : ℝ) (ts : TS) :
    (particlePhase env width height ts).player = ts.player := rfl

/-- enemyMovePhase does not touch the player. -/
lemma enemyMovePhase_player (width height : ℝ) (ts : TS) :
    (enemyMovePhase width height ts).player = ts.player := rfl

/-- spawnPhase does not touch the player. -/
lemma spawnPhase_player (env : Env) (width height : ℝ) (ts : TS) :
    (spawnPhase env width height ts).player = ts.player := by
  unfold spawnPhase
  split_ifs <;> rfl

/-- laserEnemyPhase does not touch the player. -/
lemma laserEnemyPhase_player (env : Env) (ts : TS) :
    (laserEnemyPhase env ts).player = ts.player := rfl

/-- Without a player, every player-touching block of the tick is the
identity, so the whole pre-death pipeline preserves the absence. -/
lemma preDeath_none (env : Env) (width height : ℝ) (ts : TS) (h : ts.player = none) :
    (preDeath env width height ts).player = none := by
  unfold preDeath
  rw [playerPhase_none env width height ts h]
  have h1 : (laserPhase width height ts).player = none := by rw [laserPhase_player]; exact h
  have h2 : (particlePhase env width height (laserPhase width height ts)).player = none := by
    rw [particlePhase_player]; exact h1
  have h3 : (enemyMovePhase width height (particlePhase env width height
      (laserPhase width height ts))).player = none := by
    rw [enemyMovePhase_player]; exact h2
  have h4 : (spawnPhase env width height (enemyMovePhase width height (particlePhase env width height
      (laserPhase width height ts)))).player = none := by
    rw [spawnPhase_player]; exact h3
  rw [aiPhase_none env _ h4]
  have h5 : (laserEnemyPhase env (spawnPhase env width height (enemyMovePhase width height
      (particlePhase env width height (laserPhase width height ts))))).player = none := by
    rw [laserEnemyPhase_player]; exact h4
  rw [playerVsEnemiesPhase_none env _ h5]
  rw [lasersVsPlayerPhase_none env _ h5]
  exact h5

/-! ## C8: absent player is a no-op, never a fault -/

/-- C8: when no player exists, player control application, the enemy-AI
firing, the player-vs-enemies resolution, the enemy-lasers-vs-player
resolution and the death check are all presence-checked no-ops, and the
whole tick (a total function) leaves the player absent. -/
theorem noPlayer_noop (env : Env) (width height : ℝ) (s : GameState)
    (hs : s.player = none) :
    (∀ ts : TS, ts.player = none →
      handlePlayerControls env ts = ts ∧
      playerPhase env width height ts = ts ∧
      aiPhase env ts = ts ∧
      playerVsEnemiesPhase env ts = ts ∧
      lasersVsPlayerPhase env ts = ts ∧
      deathPhase env ts = ts) ∧
    (updateAndDraw env width height s).1.player = none := by
  constructor
  · intro ts h
    exact ⟨handlePlayerControls_none env ts h, playerPhase_none env width height ts h,
      aiPhase_none env ts h, playerVsEnemiesPhase_none env ts h,
      lasersVsPlayerPhase_none env ts h, deathPhase_none env ts h⟩
  · show (deathPhase env (preDeath env width height (initTS s))).player = none
    have h0 : (initTS s).player = none := hs
    have h1 := preDeath_none env width height (initTS s) h0
    rw [deathPhase_none env _ h1]
    exact h1

/-- Concrete state for the C8 witness. -/
def c8State : GameState :=
  { player := none, enemies := [], lasers := [], particles := [], score := 0,
    status := GameStatus.Playing, lastShotTime := 0 }

/-- Concrete environment for the C8 witness. -/
def c8Env : Env :=
  { deltaTime := 16, keys := [], now := 0, playerLaserId := "pl", typeRoll := 0,
    radiusRoll := 0, sideRoll := 0, posRoll := 0, velRollX := 0, velRollY := 0,
    enemyId := "e1", fireRoll := fun _ => 1, laserId := fun _ => "el",
    prand := fun _ => (0, 0, 0, 0), pid := fun _ => "pp",
    trand := fun _ => (0, 0, 0, 0), tid := fun _ => "tp" }

/-- Witness instantiating the absent-player theorem at a concrete state. -/
theorem noPlayer_noop_witness :
    c8State.player = none ∧
    (updateAndDraw c8Env 200 100 c8State).1.player = none :=
  ⟨rfl, (noPlayer_noop c8Env 200 100 c8State rfl).2⟩

/-! ## C1: end-of-tick pruning

The source prunes at the START of a tick (filters at lines 217 and 227)
and only then applies motion and life decay, so a particle that dies, or a
laser that leaves the viewport, during a tick is still in its collection
at the end of that tick; it is removed at the start of the next tick. -/

/-- Concrete particle for the C1 counterexample: alive now, but its
remaining life (0.5 s) is less than the tick's decay (1 s). -/
def c1Particle : Particle :=
  { id := "p0", position := ⟨100, 100⟩, velocity := ⟨0, 0⟩, radius := 2,
    life := 1/2, maxLife := 1/2, color := "#ffffff", startSize := 4 }

/-- Concrete environment for the C1 counterexample: a 1000 ms frame, no
keys held, all random samples 0, no enemy fire. -/
def c1Env : Env :=
  { deltaTime := 1000, keys := [], now := 0, playerLaserId := "pl", typeRoll := 0,
    radiusRoll := 0, sideRoll := 0, posRoll := 0, velRollX := 0, velRollY := 0,
    enemyId := "e1", fireRoll := fun _ => 1, laserId := fun _ => "el",
    prand := fun _ => (0, 0, 0, 0), pid := fun _ => "pp",
    trand := fun _ => (0, 0, 0, 0), tid := fun _ => "tp" }

/-- Concrete state for the C1 counterexample. -/
def c1State : GameState :=
  { player := none, enemies := [], lasers := [], particles := [c1Particle], score := 0,
    status := GameStatus.Playing, lastShotTime := 0 }

/-- The C1 particle after the tick: life decayed to -1/2, still present. -/
def c1After : Particle :=
  { id := "p0", position := ⟨100, 100⟩, velocity := ⟨0, 0⟩, radius := -4,
    life := -(1/2), maxLife := 1/2, color := "#ffffff", startSize := 4 }

/-- The meteor spawned during the C1 tick from the all-zero samples. -/
def c1Meteor : Enemy :=
  { id := "e1", position := ⟨0, -15⟩, velocity := ⟨-1, -1⟩, radius := 15,
    type := EnemyType.Meteor, health := 15/2, maxHealth := 15/2, rotation := none }

/-- Working state of the C1 tick after the particle update. -/
def c1TS1 : TS := ⟨none, [], [], [c1After], 0, 0, [], 0⟩

/-- Working state of the C1 tick after the spawn decision. -/
def c1TS2 : TS := ⟨none, [c1Meteor], [], [c1After], 0, 0, [], 0⟩

/-- Evaluation of the C1 tick: the dead particle is still in the
collection at the end of the tick. -/
lemma c1_eval : (updateAndDraw c1Env 200 200 c1State).1.particles = [c1After] := by
  have e0 : playerPhase c1Env 200 200 (initTS c1State) = initTS c1State :=
    playerPhase_none c1Env 200 200 (initTS c1State) rfl
  have e1 : laserPhase 200 200 (initTS c1State) = initTS c1State := rfl
  have e2 : particlePhase c1Env 200 200 (initTS c1State) = c1TS1 := by
    norm_num [particlePhase, particleStep, pruneParticles, initTS, c1State, c1Particle,
      c1Env, c1TS1, c1After, Particle.updatePos, updatePosition, Particle.obj,
      List.filter_cons, List.filter_nil, decide_eq_true_eq]
  have e3 : enemyMovePhase 200 200 c1TS1 = c1TS1 := rfl
  have e4 : spawnPhase c1Env 200 200 c1TS1 = c1TS2 := by
    norm_num [spawnPhase, spawnEnemy, randomBetween, c1TS1, c1TS2, c1Env, c1Meteor,
      Int.floor_zero]
  have e5 : aiPhase c1Env c1TS2 = c1TS2 := by
    norm_num [aiPhase, aiGo, aiStep, c1TS2, c1Meteor]
  have e6 : laserEnemyPhase c1Env c1TS2 = c1TS2 := by
    norm_num [laserEnemyPhase, lasersVsEnemies, enemySweep, c1TS2, c1Meteor]
  have e7 : playerVsEnemiesPhase c1Env c1TS2 = c1TS2 :=
    playerVsEnemiesPhase_none c1Env c1TS2 rfl
  have e8 : lasersVsPlayerPhase c1Env c1TS2 = c1TS2 :=
    lasersVsPlayerPhase_none c1Env c1TS2 rfl
  have e9 : deathPhase c1Env c1TS2 = c1TS2 := deathPhase_none c1Env c1TS2 rfl
  show (deathPhase c1Env (preDeath c1Env 200 200 (initTS c1State))).particles = [c1After]
  unfold preDeath
  rw [e0, e1, e2, e3, e4, e5, e6, e7, e8, e9]
  rfl

/-- C1 counterexample: at the end of the tick on c1State, the particle
collection still contains a particle with life ≤ 0 (the pruning happened
at the start of the tick, before the life decay), refuting the claim as
stated at this concrete input. -/
theorem advancePrunes_counterexample :
    ¬ ((∀ pt ∈ (updateAndDraw c1Env 200 200 c1State).1.particles, 0 < pt.life) ∧
       (∀ l ∈ (updateAndDraw c1Env 200 200 c1State).1.lasers,
         0 ≤ l.position.x ∧ l.position.x ≤ 200 ∧
         0 ≤ l.position.y ∧ l.position.y ≤ 200)) := by
  intro hcl
  have h := hcl.1 c1After (by rw [c1_eval]; exact List.mem_singleton_self _)
  norm_num [c1After] at h

/-- C1 amended: the pruning runs at the start of each tick, before motion
and decay — no particle with life ≤ 0 and no laser outside the strict
viewport interior survives the prune step, and the tick applies motion
only to the pruned survivors. -/
theorem prunedBeforeUpdate (width height : ℝ) (lasers : List Laser)
    (particles : List Particle) (env : Env) (ts : TS) :
    (∀ l ∈ pruneLasers width height lasers,
      0 < l.position.x ∧ l.position.x < width ∧ 0 < l.position.y ∧ l.position.y < height) ∧
    (∀ pt ∈ pruneParticles particles, 0 < pt.life) ∧
    laserPhase width height ts =
      { ts with lasers := (pruneLasers width height ts.lasers).map (Laser.updatePos width height) } ∧
    particlePhase env width height ts =
      { ts with particles := (pruneParticles ts.particles).map (particleStep env width height) } := by
  refine ⟨?_, ?_, rfl, rfl⟩
  · intro l hl
    have h := (List.mem_filter.mp hl).2
    simpa using h
  · intro pt hp
    have h := (List.mem_filter.mp hp).2
    simpa using h

/-- Concrete laser for the C1 amended-claim witness. -/
def c1WitLaser : Laser := ⟨"wl", ⟨50, 50⟩, ⟨0, 0⟩, 2, true⟩

/-- Concrete dead particle for the C1 amended-claim witness. -/
def c1WitParticle : Particle := ⟨"wp", ⟨0, 0⟩, ⟨0, 0⟩, 1, -1, 1, "#ffffff", 2⟩

/-! ## Enemy-count helper lemmas -/

/-- Controls do not touch the enemy collection. -/
lemma handlePlayerControls_enemies (env : Env) (ts : TS) :
    (handlePlayerControls env ts).enemies = ts.enemies := by
  unfold handlePlayerControls
  cases hp : ts.player <;> rfl

/-- The player block does not touch the enemy collection. -/
lemma playerPhase_enemies (env : Env) (width height : ℝ) (ts : TS) :
    (playerPhase env width height ts).enemies = ts.enemies := by
  unfold playerPhase
  cases hp : ts.player
  · rfl
  · show ({ handlePlayerControls env ts with
      player := (handlePlayerControls env ts).player.map (Player.updatePos width height) }).enemies = ts.enemies
    exact handlePlayerControls_enemies env ts

/-- The laser block does not touch the enemy collection. -/
lemma laserPhase_enemies (width height : ℝ) (ts : TS) :
    (laserPhase width height ts).enemies = ts.enemies := rfl

/-- The particle block does not touch the enemy collection. -/
lemma particlePhase_enemies (env : Env) (width height : ℝ) (ts : TS) :
    (particlePhase env width height ts).enemies = ts.enemies := rfl

/-- Moving the enemies preserves their count. -/
lemma enemyMovePhase_length (width height : ℝ) (ts : TS) :
    (enemyMovePhase width height ts).enemies.length = ts.enemies.length := by
  unfold enemyMovePhase
  exact List.length_map _ _

/-- One AI step does not touch the enemy collection. -/
lemma aiStep_enemies (env : Env) (acc : TS) (i : ℕ) (e : Enemy) :
    (aiStep env acc i e).enemies = acc.enemies := by
  unfold aiStep
  split_ifs <;> cases hp : acc.player <;> rfl

/-- The AI walk does not touch the enemy collection. -/
lemma aiGo_enemies (env : Env) (l : List Enemy) (i : ℕ) (acc : TS) :
    (aiGo env l i acc).enemies = acc.enemies := by
  induction l generalizing i acc with
  | nil => rfl
  | cons e rest ih => rw [aiGo, ih, aiStep_enemies]

/-- The AI phase does not touch the enemy collection. -/
lemma aiPhase_enemies (env : Env) (ts : TS) :
    (aiPhase env ts).enemies = ts.enemies :=
  aiGo_enemies env ts.enemies 0 ts

/-- The lasers-vs-enemies resolution splits the input enemies into kept
and destroyed ones. -/
lemma lasersVsEnemies_split (env : Env) :
    ∀ (es : List Enemy) (L : List Laser) (ctr : ℕ),
      (lasersVsEnemies env es L ctr).enemies.length +
        (lasersVsEnemies env es L ctr).destroyed.length = es.length := by
  intro es
  induction es with
  | nil => intro L ctr; rfl
  | cons e rest ih =>
    intro L ctr
    unfold lasersVsEnemies
    dsimp only
    set s := enemySweep env L e false ctr with hs
    by_cases h : s.destroyed = true
    · rw [if_pos h]
      dsimp only
      simp only [List.length_cons]
      have h1 := ih s.lasers (createExplosion env s.ctr s.enemy.position s.enemy.radius
        (if s.enemy.type = EnemyType.Saucer then "#8338ec" else "#a9a9a9") (s.enemy.radius / 2)).2
      omega
    · rw [if_neg h]
      dsimp only
      simp only [List.length_cons]
      have h1 := ih s.lasers s.ctr
      omega

/-- The lasers-vs-enemies phase cannot grow the enemy collection. -/
lemma laserEnemyPhase_length (env : Env) (ts : TS) :
    (laserEnemyPhase env ts).enemies.length ≤ ts.enemies.length := by
  have h := lasersVsEnemies_split env ts.enemies ts.lasers ts.pctr
  show (lasersVsEnemies env ts.enemies ts.lasers ts.pctr).enemies.length ≤ ts.enemies.length
  omega

/-- The player-vs-enemies block cannot grow the enemy collection. -/
lemma playerVsEnemiesPhase_length (env : Env) (ts : TS) :
    (playerVsEnemiesPhase env ts).enemies.length ≤ ts.enemies.length := by
  unfold playerVsEnemiesPhase
  cases hp : ts.player with
  | none => exact le_refl _
  | some p =>
    dsimp only
    cases hf : List.find? (fun e => decide (checkCollision p.obj e.obj)) ts.enemies with
    | none => exact le_refl _
    | some e =>
      dsimp only
      exact List.length_filter_le _ _

/-- The enemy-lasers-vs-player block does not touch the enemy collection. -/
lemma lasersVsPlayerPhase_enemies (env : Env) (ts : TS) :
    (lasersVsPlayerPhase env ts).enemies = ts.enemies := by
  unfold lasersVsPlayerPhase
  cases hp : ts.player <;> rfl

/-- The death check does not touch the enemy collection. -/
lemma deathPhase_enemies (env : Env) (ts : TS) :
    (deathPhase env ts).enemies = ts.enemies := by
  unfold deathPhase
  cases hp : ts.player
  · rfl
  · dsimp only
    split_ifs <;> rfl

/-- The spawn decision does not touch the score. -/
lemma spawnPhase_score (env : Env) (width height : ℝ) (ts : TS) :
    (spawnPhase env width height ts).score = ts.score := by
  unfold spawnPhase
  split_ifs <;> rfl

/-! ## C5: spawn cap -/

/-- C5: the spawner makes exactly one spawn decision per tick — the enemy
count grows by at most one over a whole tick — an enemy is spawned iff the
live count is strictly below 5 + floor(score/500), and when the count
respects the cap before the decision it still respects it immediately
after. -/
theorem spawnCap (env : Env) (width height : ℝ) (ts : TS)
    (hcap : (ts.enemies.length : ℝ) ≤ 5 + (⌊ts.score / 500⌋ : ℤ)) :
    (spawnPhase env width height ts).enemies.length ≤ ts.enemies.length + 1 ∧
    ((spawnPhase env width height ts).enemies.length = ts.enemies.length + 1 ↔
      (ts.enemies.length : ℝ) < 5 + (⌊ts.score / 500⌋ : ℤ)) ∧
    ((spawnPhase env width height ts).enemies.length : ℝ) ≤
      5 + (⌊(spawnPhase env width height ts).score / 500⌋ : ℤ) ∧
    (∀ s : GameState,
      (updateAndDraw env width height s).1.enemies.length ≤ s.enemies.length + 1) := by
  refine ⟨?_, ?_, ?_, ?_⟩
  · unfold spawnPhase
    split_ifs <;> simp
  · unfold spawnPhase
    split_ifs with h
    · dsimp only
      simp only [List.length_append, List.length_singleton]
      constructor
      · intro _; exact h
      · intro _; trivial
    · constructor
      · intro habs; omega
      · intro habs; exact absurd habs h
  · rw [spawnPhase_score]
    unfold spawnPhase
    split_ifs with h
    · dsimp only
      simp only [List.length_append, List.length_singleton]
      have hz : (ts.enemies.length : ℤ) < 5 + ⌊ts.score / 500⌋ := by exact_mod_cast h
      have hz2 : ((ts.enemies.length : ℤ) + 1) ≤ 5 + ⌊ts.score / 500⌋ := by omega
      exact_mod_cast hz2
    · exact hcap
  · intro s
    show (deathPhase env (preDeath env width height (initTS s))).enemies.length ≤
      s.enemies.length + 1
    rw [deathPhase_enemies]
    unfold preDeath
    rw [lasersVsPlayerPhase_enemies]
    have h1 := playerVsEnemiesPhase_length env
      (laserEnemyPhase env (aiPhase env (spawnPhase env width height
        (enemyMovePhase width height (particlePhase env width height
          (laserPhase width height (playerPhase env width height (initTS s))))))))
    have h2 := laserEnemyPhase_length env
      (aiPhase env (spawnPhase env width height
        (enemyMovePhase width height (particlePhase env width height
          (laserPhase width height (playerPhase env width height (initTS s)))))))
    rw [aiPhase_enemies] at h2
    have h3 : (spawnPhase env width height
        (enemyMovePhase width height (particlePhase env width height
          (laserPhase width height (playerPhase env width height (initTS s)))))).enemies.length ≤
        (enemyMovePhase width height (particlePhase env width height
          (laserPhase width height (playerPhase env width height (initTS s))))).enemies.length + 1 := by
      unfold spawnPhase
      split_ifs <;> simp
    have h4 := enemyMovePhase_length width height (particlePhase env width height
      (laserPhase width height (playerPhase env width height (initTS s))))
    rw [particlePhase_enemies, laserPhase_enemies, playerPhase_enemies] at h4
    have h5 : (initTS s).enemies = s.enemies := rfl
    rw [h5] at h4
    omega

/-- Concrete working state for the C5 witness. -/
def c5TS : TS := ⟨none, [], [], [], 0, 0, [], 0⟩

/-- Concrete environment for the C5 witness. -/
def c5Env : Env :=
  { deltaTime := 16, keys := [], now := 0, playerLaserId := "pl", typeRoll := 0,
    radiusRoll := 0, sideRoll := 0, posRoll := 0, velRollX := 0, velRollY := 0,
    enemyId := "e1", fireRoll := fun _ => 1, laserId := fun _ => "el",
    prand := fun _ => (0, 0, 0, 0), pid := fun _ => "pp",
    trand := fun _ => (0, 0, 0, 0), tid := fun _ => "tp" }

/-- Witness instantiating the spawn-cap theorem at a concrete state. -/
theorem spawnCap_witness :
    ((c5TS.enemies.length : ℝ) ≤ 5 + (⌊c5TS.score / 500⌋ : ℤ)) ∧
    (spawnPhase c5Env 200 100 c5TS).enemies.length ≤ c5TS.enemies.length + 1 ∧
    ((spawnPhase c5Env 200 100 c5TS).enemies.length : ℝ) ≤
      5 + (⌊(spawnPhase c5Env 200 100 c5TS).score / 500⌋ : ℤ) :=
  ⟨by norm_num [c5TS, Int.floor_zero],
   (spawnCap c5Env 200 100 c5TS (by norm_num [c5TS, Int.floor_zero])).1,
   (spawnCap c5Env 200 100 c5TS (by norm_num [c5TS, Int.floor_zero])).2.2.1⟩

/-! ## C3: player-vs-enemies resolves one enemy per tick -/

/-- Filtering out one present id from a list with pairwise-distinct ids
removes exactly one element. -/
lemma length_filter_ne_id :
    ∀ (l : List Enemy) (e0 : Enemy), e0 ∈ l → (l.map Enemy.id).Nodup →
      (l.filter (fun e2 => decide (¬e2.id = e0.id))).length + 1 = l.length := by
  intro l
  induction l with
  | nil => intro e0 h _; exact absurd h (List.not_mem_nil _)
  | cons b t ih =>
    intro e0 hmem hnd
    rw [List.map_cons, List.nodup_cons] at hnd
    obtain ⟨hb, hnd'⟩ := hnd
    rcases List.mem_cons.mp hmem with h1 | h1
    · rw [← h1] at hb ⊢
      have hall : t.filter (fun e2 => decide (¬e2.id = e0.id)) = t := by
        refine List.filter_eq_self.mpr ?_
        intro a ha
        refine decide_eq_true ?_
        intro hEq
        exact hb (hEq ▸ List.mem_map_of_mem Enemy.id ha)
      simp [List.filter_cons, hall]
      intro a ha hEq
      exact hb (hEq ▸ List.mem_map_of_mem Enemy.id ha)
    · have hbne : ¬b.id = e0.id := by
        intro hEq
        exact hb (hEq ▸ List.mem_map_of_mem Enemy.id h1)
      have h2 := ih e0 h1 hnd'
      simp only [List.filter_cons, decide_eq_true hbne, if_true, List.length_cons]
      omega

/-- C3: whenever the player exists and overlaps at least one enemy, the
player-vs-enemies block subtracts exactly 20 health once, removes exactly
the first overlapping enemy in iteration order (given distinct ids),
leaves every other enemy — overlapping or not — in the collection, and
awards no score. -/
theorem playerVsEnemies_firstHit (env : Env) (ts : TS) (p : Player)
    (hp : ts.player = some p)
    (hhit : ∃ e ∈ ts.enemies, checkCollision p.obj e.obj)
    (hn : (ts.enemies.map Enemy.id).Nodup) :
    ∃ e0, ts.enemies.find? (fun e => decide (checkCollision p.obj e.obj)) = some e0 ∧
      e0 ∈ ts.enemies ∧ checkCollision p.obj e0.obj ∧
      (playerVsEnemiesPhase env ts).player = some { p with health := p.health - 20 } ∧
      (playerVsEnemiesPhase env ts).enemies =
        ts.enemies.filter (fun e2 => decide (¬e2.id = e0.id)) ∧
      (playerVsEnemiesPhase env ts).enemies.length + 1 = ts.enemies.length ∧
      (∀ e2 ∈ ts.enemies, ¬e2.id = e0.id → e2 ∈ (playerVsEnemiesPhase env ts).enemies) ∧
      (playerVsEnemiesPhase env ts).score = ts.score := by
  obtain ⟨ew, hewMem, hewCol⟩ := hhit
  have hsome : (ts.enemies.find? (fun e => decide (checkCollision p.obj e.obj))).isSome :=
    List.find?_isSome.mpr ⟨ew, hewMem, decide_eq_true hewCol⟩
  obtain ⟨e0, hf⟩ := Option.isSome_iff_exists.mp hsome
  have hcol0 : checkCollision p.obj e0.obj := by
    have h := List.find?_some hf
    simpa using h
  refine ⟨e0, hf, List.mem_of_find?_eq_some hf, hcol0, ?_, ?_, ?_, ?_, ?_⟩
  · unfold playerVsEnemiesPhase
    rw [hp]
    dsimp only
    rw [hf]
  · unfold playerVsEnemiesPhase
    rw [hp]
    dsimp only
    rw [hf]
  · unfold playerVsEnemiesPhase
    rw [hp]
    dsimp only
    rw [hf]
    dsimp only
    exact length_filter_ne_id ts.enemies e0 (List.mem_of_find?_eq_some hf) hn
  · intro e2 he2 hne
    unfold playerVsEnemiesPhase
    rw [hp]
    dsimp only
    rw [hf]
    dsimp only
    exact List.mem_filter.mpr ⟨he2, decide_eq_true hne⟩
  · unfold playerVsEnemiesPhase
    rw [hp]
    dsimp only
    rw [hf]

/-- Concrete environment for the C3 witness. -/
def c3Env : Env :=
  { deltaTime := 16, keys := [], now := 0, playerLaserId := "pl", typeRoll := 0,
    radiusRoll := 0, sideRoll := 0, posRoll := 0, velRollX := 0, velRollY := 0,
    enemyId := "e1", fireRoll := fun _ => 1, laserId := fun _ => "el",
    prand := fun _ => (0, 0, 0, 0), pid := fun _ => "pp",
    trand := fun _ => (0, 0, 0, 0), tid := fun _ => "tp" }

/-- Concrete player for the C3 witness. -/
def c3Player : Player :=
  { id := "player", position := ⟨50, 50⟩, velocity := ⟨0, 0⟩, radius := 10,
    health := 100, maxHealth := 100, rotation := 0 }

/-- First overlapping enemy for the C3 witness (same position as the
player). -/
def c3EnemyA : Enemy :=
  { id := "ea", position := ⟨50, 50⟩, velocity := ⟨0, 0⟩, radius := 15,
    type := EnemyType.Meteor, health := 10, maxHealth := 10, rotation := none }

/-- Second, simultaneously overlapping enemy for the C3 witness. -/
def c3EnemyB : Enemy :=
  { id := "eb", position := ⟨50, 50⟩, velocity := ⟨0, 0⟩, radius := 20,
    type := EnemyType.Saucer, health := 10, maxHealth := 10, rotation := none }

/-- Concrete working state for the C3 witness: two enemies overlap the
player at once. -/
def c3TS : TS := ⟨some c3Player, [c3EnemyA, c3EnemyB], [], [], 0, 0, [], 0⟩

/-- Witness instantiating the player-vs-enemies theorem at a concrete
state where two enemies overlap the player simultaneously. -/
theorem playerVsEnemies_firstHit_witness :
    c3TS.player = some c3Player ∧
    (∃ e ∈ c3TS.enemies, checkCollision c3Player.obj e.obj) ∧
    (c3TS.enemies.map Enemy.id).Nodup ∧
    (∃ e0, c3TS.enemies.find? (fun e => decide (checkCollision c3Player.obj e.obj)) = some e0 ∧
      e0 ∈ c3TS.enemies ∧ checkCollision c3Player.obj e0.obj ∧
      (playerVsEnemiesPhase c3Env c3TS).player =
        some { c3Player with health := c3Player.health - 20 } ∧
      (playerVsEnemiesPhase c3Env c3TS).enemies =
        c3TS.enemies.filter (fun e2 => decide (¬e2.id = e0.id)) ∧
      (playerVsEnemiesPhase c3Env c3TS).enemies.length + 1 = c3TS.enemies.length ∧
      (∀ e2 ∈ c3TS.enemies, ¬e2.id = e0.id → e2 ∈ (playerVsEnemiesPhase c3Env c3TS).enemies) ∧
      (playerVsEnemiesPhase c3Env c3TS).score = c3TS.score) := by
  have hcol : checkCollision c3Player.obj c3EnemyA.obj := by
    rw [checkCollision_iff]
    norm_num [Player.obj, Enemy.obj, c3Player, c3EnemyA]
  refine ⟨rfl, ⟨c3EnemyA, by simp [c3TS], hcol⟩, by simp [c3TS, c3EnemyA, c3EnemyB], ?_⟩
  exact playerVsEnemies_firstHit c3Env c3TS c3Player rfl
    ⟨c3EnemyA, by simp [c3TS], hcol⟩ (by simp [c3TS, c3EnemyA, c3EnemyB])

/-! ## C10: faction immunity -/

/-- Changing an enemy's health does not change its GameObject view. -/
lemma enemyObjSetHealth (e : Enemy) (x : ℝ) :
    (({ e with health := x } : Enemy)).obj = e.obj := rfl

/-- Changing a player's health does not change its GameObject view. -/
lemma playerObjSetHealth (p : Player) (x : ℝ) :
    (({ p with health := x } : Player)).obj = p.obj := rfl

/-- The enemy coming out of one sweep: health reduced by 5 per colliding
player laser in the working set, nothing else changed. -/
lemma enemySweep_enemy (env : Env) :
    ∀ (L : List Laser) (e : Enemy) (d : Bool) (ctr : ℕ),
      (enemySweep env L e d ctr).enemy =
        { e with health := e.health -
          5 * (L.countP (fun l => decide (l.isPlayerLaser = true ∧ checkCollision l.obj e.obj)) : ℕ) } := by
  intro L
  induction L with
  | nil =>
    intro e d ctr
    simp [enemySweep]
  | cons l rest ih =>
    intro e d ctr
    rw [enemySweep]
    by_cases hc : l.isPlayerLaser = true ∧ checkCollision l.obj e.obj
    · rw [if_pos hc]
      dsimp only
      rw [ih]
      simp only [enemyObjSetHealth, List.countP_cons, decide_eq_true hc, if_true]
      push_cast
      ring_nf
    · rw [if_neg hc]
      dsimp only
      rw [ih]
      simp only [List.countP_cons, decide_eq_false hc]
      simp

/-- A non-player laser is never consumed by the enemy sweep. -/
lemma enemySweep_keeps (env : Env) :
    ∀ (L : List Laser) (e : Enemy) (d : Bool) (ctr : ℕ) (l : Laser),
      l ∈ L → l.isPlayerLaser = false → l ∈ (enemySweep env L e d ctr).lasers := by
  intro L
  induction L with
  | nil => intro e d ctr l h _; exact absurd h (List.not_mem_nil _)
  | cons l0 rest ih =>
    intro e d ctr l hmem hfalse
    rw [enemySweep]
    by_cases hc : l0.isPlayerLaser = true ∧ checkCollision l0.obj e.obj
    · rw [if_pos hc]
      dsimp only
      rcases List.mem_cons.mp hmem with h1 | h1
      · rw [h1] at hfalse
        rw [hc.1] at hfalse
        exact absurd hfalse (by simp)
      · exact ih _ _ _ l h1 hfalse
    · rw [if_neg hc]
      dsimp only
      rcases List.mem_cons.mp hmem with h1 | h1
      · rw [h1]; exact List.mem_cons_self _ _
      · exact List.mem_cons_of_mem _ (ih _ _ _ l h1 hfalse)

/-- The player coming out of the enemy-laser sweep: health reduced by 10
per colliding non-player laser, nothing else changed. -/
lemma playerLaserSweep_player (env : Env) :
    ∀ (L : List Laser) (p : Player) (ctr : ℕ),
      (playerLaserSweep env L p ctr).1 =
        { p with health := p.health -
          10 * (L.countP (fun l => decide (l.isPlayerLaser = false ∧ checkCollision l.obj p.obj)) : ℕ) } := by
  intro L
  induction L with
  | nil =>
    intro p ctr
    simp [playerLaserSweep]
  | cons l rest ih =>
    intro p ctr
    rw [playerLaserSweep]
    by_cases hc : l.isPlayerLaser = false ∧ checkCollision l.obj p.obj
    · rw [if_pos hc]
      dsimp only
      rw [ih]
      simp only [playerObjSetHealth, List.countP_cons, decide_eq_true hc, if_true]
      push_cast
      ring_nf
    · rw [if_neg hc]
      dsimp only
      rw [ih]
      simp only [List.countP_cons, decide_eq_false hc]
      simp

/-- A player laser is never consumed by the enemy-laser-vs-player sweep. -/
lemma playerLaserSweep_keeps (env : Env) :
    ∀ (L : List Laser) (p : Player) (ctr : ℕ) (l : Laser),
      l ∈ L → l.isPlayerLaser = true → l ∈ (playerLaserSweep env L p ctr).2.1 := by
  intro L
  induction L with
  | nil => intro p ctr l h _; exact absurd h (List.not_mem_nil _)
  | cons l0 rest ih =>
    intro p ctr l hmem htrue
    rw [playerLaserSweep]
    by_cases hc : l0.isPlayerLaser = false ∧ checkCollision l0.obj p.obj
    · rw [if_pos hc]
      dsimp only
      rcases List.mem_cons.mp hmem with h1 | h1
      · rw [h1] at htrue
        rw [hc.1] at htrue
        exact absurd htrue (by simp)
      · exact ih _ _ l h1 htrue
    · rw [if_neg hc]
      dsimp only
      rcases List.mem_cons.mp hmem with h1 | h1
      · rw [h1]; exact List.mem_cons_self _ _
      · exact List.mem_cons_of_mem _ (ih _ _ l h1 htrue)

/-- C10: in the laser phases, an enemy's health is reduced exactly by 5
per overlapping laser with isPlayerLaser = true (enemy lasers deal it
nothing and are not consumed by it), and the player's health is reduced
exactly by 10 per overlapping laser with isPlayerLaser = false (player
lasers deal the player nothing and are not consumed by the player). -/
theorem factionImmunity (env : Env) (e : Enemy) (p : Player) (L : List Laser)
    (ctr ctr2 : ℕ) :
    (enemySweep env L e false ctr).enemy.health = e.health -
      5 * (L.countP (fun l => decide (l.isPlayerLaser = true ∧ checkCollision l.obj e.obj)) : ℕ) ∧
    (∀ l ∈ L, l.isPlayerLaser = false → l ∈ (enemySweep env L e false ctr).lasers) ∧
    (playerLaserSweep env L p ctr2).1.health = p.health -
      10 * (L.countP (fun l => decide (l.isPlayerLaser = false ∧ checkCollision l.obj p.obj)) : ℕ) ∧
    (∀ l ∈ L, l.isPlayerLaser = true → l ∈ (playerLaserSweep env L p ctr2).2.1) := by
  refine ⟨?_, ?_, ?_, ?_⟩
  · rw [enemySweep_enemy]
  · intro l hl hfalse
    exact enemySweep_keeps env L e false ctr l hl hfalse
  · rw [playerLaserSweep_player]
  · intro l hl htrue
    exact playerLaserSweep_keeps env L p ctr2 l hl htrue

/-- Concrete enemy laser (overlapping both targets) for the C10 witness. -/
def c10EnemyLaser : Laser := ⟨"el0", ⟨50, 50⟩, ⟨0, 0⟩, 3, false⟩

/-- Concrete player laser (overlapping both targets) for the C10 witness. -/
def c10PlayerLaser : Laser := ⟨"pl0", ⟨50, 50⟩, ⟨0, 0⟩, 2, true⟩

/-- Concrete enemy for the C10 witness. -/
def c10Enemy : Enemy :=
  { id := "e10", position := ⟨50, 50⟩, velocity := ⟨0, 0⟩, radius := 15,
    type := EnemyType.Saucer, health := 10, maxHealth := 10, rotation := none }

/-- Concrete player for the C10 witness. -/
def c10Player : Player :=
  { id := "player", position := ⟨50, 50⟩, velocity := ⟨0, 0⟩, radius := 10,
    health := 100, maxHealth := 100, rotation := 0 }

/-- Concrete environment for the C10 witness. -/
def c10Env : Env :=
  { deltaTime := 16, keys := [], now := 0, playerLaserId := "pl", typeRoll := 0,
    radiusRoll := 0, sideRoll := 0, posRoll := 0, velRollX := 0, velRollY := 0,
    enemyId := "e1", fireRoll := fun _ => 1, laserId := fun _ => "el",
    prand := fun _ => (0, 0, 0, 0), pid := fun _ => "pp",
    trand := fun _ => (0, 0, 0, 0), tid := fun _ => "tp" }

/-- Witness instantiating faction immunity on a working set holding one
laser of each faction, both overlapping both targets. -/
theorem factionImmunity_witness :
    c10EnemyLaser ∈ (enemySweep c10Env [c10EnemyLaser, c10PlayerLaser] c10Enemy false 0).lasers ∧
    c10PlayerLaser ∈ (playerLaserSweep c10Env [c10EnemyLaser, c10PlayerLaser] c10Player 0).2.1 ∧
    (enemySweep c10Env [c10EnemyLaser, c10PlayerLaser] c10Enemy false 0).enemy.health =
      c10Enemy.health - 5 * (([c10EnemyLaser, c10PlayerLaser].countP
        (fun l => decide (l.isPlayerLaser = true ∧ checkCollision l.obj c10Enemy.obj))) : ℕ) ∧
    (playerLaserSweep c10Env [c10EnemyLaser, c10PlayerLaser] c10Player 0).1.health =
      c10Player.health - 10 * (([c10EnemyLaser, c10PlayerLaser].countP
        (fun l => decide (l.isPlayerLaser = false ∧ checkCollision l.obj c10Player.obj))) : ℕ) :=
  ⟨(factionImmunity c10Env c10Enemy c10Player [c10EnemyLaser, c10PlayerLaser] 0 0).2.1
      c10EnemyLaser (by simp) rfl,
   (factionImmunity c10Env c10Enemy c10Player [c10EnemyLaser, c10PlayerLaser] 0 0).2.2.2
      c10PlayerLaser (by simp) rfl,
   (factionImmunity c10Env c10Enemy c10Player [c10EnemyLaser, c10PlayerLaser] 0 0).1,
   (factionImmunity c10Env c10Enemy c10Player [c10EnemyLaser, c10PlayerLaser] 0 0).2.2.1⟩

/-! ## C4: destruction score -/

/-- The destroyed flag is only raised by a hit that leaves the enemy at
health 0 or below (and health only decreases afterwards). -/
lemma enemySweep_destroyed (env : Env) :
    ∀ (L : List Laser) (e : Enemy) (d : Bool) (ctr : ℕ),
      (enemySweep env L e d ctr).destroyed = true →
      d = true ∨ (enemySweep env L e d ctr).enemy.health ≤ 0 := by
  intro L
  induction L with
  | nil =>
    intro e d ctr h
    exact Or.inl h
  | cons l rest ih =>
    intro e d ctr h
    rw [enemySweep] at h ⊢
    by_cases hc : l.isPlayerLaser = true ∧ checkCollision l.obj e.obj
    · rw [if_pos hc] at h ⊢
      dsimp only at h ⊢
      rcases ih _ _ _ h with h1 | h1
      · by_cases hh : ({ e with health := e.health - 5 } : Enemy).health ≤ 0
        · refine Or.inr ?_
          rw [enemySweep_enemy]
          dsimp only
          dsimp only at hh
          have hcnt : (0:ℝ) ≤ 5 * ((rest.countP (fun l2 => decide (l2.isPlayerLaser = true ∧
              checkCollision l2.obj ({ e with health := e.health - 5 } : Enemy).obj))) : ℕ) := by
            positivity
          linarith
        · rw [if_neg hh] at h1
          exact Or.inl h1
      · exact Or.inr h1
    · rw [if_neg hc] at h ⊢
      dsimp only at h ⊢
      rcases ih _ _ _ h with h1 | h1
      · exact Or.inl h1
      · exact Or.inr h1

/-- Core accounting of the lasers-vs-enemies resolution: the score delta
is exactly the sum of floor(maxHealth * 5) over the destroyed enemies in
order; every destroyed enemy left at health ≤ 0; kept and destroyed
enemies repartition the input ids; every destroyed enemy stems from an
input enemy with the same id and maxHealth. -/
lemma lasersVsEnemies_spec (env : Env) :
    ∀ (es : List Enemy) (L : List Laser) (ctr : ℕ),
      (lasersVsEnemies env es L ctr).scoreDelta =
        (((lasersVsEnemies env es L ctr).destroyed).map
          (fun e => ((⌊e.maxHealth * 5⌋ : ℤ) : ℝ))).sum ∧
      (∀ e ∈ (lasersVsEnemies env es L ctr).destroyed, e.health ≤ 0) ∧
      ((((lasersVsEnemies env es L ctr).enemies ++
          (lasersVsEnemies env es L ctr).destroyed).map Enemy.id).Perm (es.map Enemy.id)) ∧
      (∀ e2 ∈ (lasersVsEnemies env es L ctr).destroyed,
        ∃ e ∈ es, e2.id = e.id ∧ e2.maxHealth = e.maxHealth) := by
  intro es
  induction es with
  | nil =>
    intro L ctr
    refine ⟨rfl, ?_, by simp [lasersVsEnemies], ?_⟩
    · intro e h; exact absurd h (List.not_mem_nil _)
    · intro e h; exact absurd h (List.not_mem_nil _)
  | cons e rest ih =>
    intro L ctr
    rw [lasersVsEnemies]
    dsimp only
    set s := enemySweep env L e false ctr with hs
    have hse : s.enemy = { e with health := e.health -
        5 * ((L.countP (fun l => decide (l.isPlayerLaser = true ∧ checkCollision l.obj e.obj))) : ℕ) } := by
      rw [hs]; exact enemySweep_enemy env L e false ctr
    have hsid : s.enemy.id = e.id := by rw [hse]
    have hsmh : s.enemy.maxHealth = e.maxHealth := by rw [hse]
    by_cases h : s.destroyed = true
    · rw [if_pos h]
      dsimp only
      obtain ⟨ih1, ih2, ih3, ih4⟩ := ih s.lasers (createExplosion env s.ctr s.enemy.position
        s.enemy.radius (if s.enemy.type = EnemyType.Saucer then "#8338ec" else "#a9a9a9")
        (s.enemy.radius / 2)).2
      refine ⟨?_, ?_, ?_, ?_⟩
      · simp only [List.map_cons, List.sum_cons, ih1]
      · intro e2 he2
        rcases List.mem_cons.mp he2 with h1 | h1
        · rw [h1]
          rcases enemySweep_destroyed env L e false ctr (hs ▸ h) with h2 | h2
          · exact absurd h2 (by simp)
          · exact hs ▸ h2
        · exact ih2 e2 h1
      · rw [List.map_append, List.map_cons, List.map_cons, ← hsid]
        refine List.Perm.trans List.perm_middle ?_
        refine List.Perm.cons _ ?_
        have h3 := ih3
        rw [List.map_append] at h3
        exact h3
      · intro e2 he2
        rcases List.mem_cons.mp he2 with h1 | h1
        · exact ⟨e, List.mem_cons_self _ _, by rw [h1, hsid], by rw [h1, hsmh]⟩
        · obtain ⟨e3, he3, hid3, hmh3⟩ := ih4 e2 h1
          exact ⟨e3, List.mem_cons_of_mem _ he3, hid3, hmh3⟩
    · rw [if_neg h]
      dsimp only
      obtain ⟨ih1, ih2, ih3, ih4⟩ := ih s.lasers s.ctr
      refine ⟨ih1, ih2, ?_, ?_⟩
      · rw [List.cons_append, List.map_cons, List.map_cons, ← hsid]
        exact List.Perm.cons _ ih3
      · intro e2 he2
        obtain ⟨e3, he3, hid3, hmh3⟩ := ih4 e2 he2
        exact ⟨e3, List.mem_cons_of_mem _ he3, hid3, hmh3⟩

/-- C4: every enemy destroyed by player-laser damage in the
lasers-vs-enemies resolution contributes exactly floor(maxHealth * 5) to
the score delta, exactly once (the delta is the sum over the destroyed
enemies), each such enemy was left at health ≤ 0 by the damage, keeps the
maxHealth of the input enemy it came from, and (for pairwise-distinct ids)
is removed from the surviving enemy collection in the same tick. -/
theorem laserKillScore (env : Env) (es : List Enemy) (L : List Laser) (ctr : ℕ)
    (hn : (es.map Enemy.id).Nodup) :
    (lasersVsEnemies env es L ctr).scoreDelta =
      (((lasersVsEnemies env es L ctr).destroyed).map
        (fun e => ((⌊e.maxHealth * 5⌋ : ℤ) : ℝ))).sum ∧
    (∀ e ∈ (lasersVsEnemies env es L ctr).destroyed, e.health ≤ 0) ∧
    (lasersVsEnemies env es L ctr).enemies.length +
      (lasersVsEnemies env es L ctr).destroyed.length = es.length ∧
    (∀ e2 ∈ (lasersVsEnemies env es L ctr).destroyed,
      ∃ e ∈ es, e2.id = e.id ∧ e2.maxHealth = e.maxHealth) ∧
    (∀ e2 ∈ (lasersVsEnemies env es L ctr).destroyed,
      ∀ e3 ∈ (lasersVsEnemies env es L ctr).enemies, ¬e3.id = e2.id) := by
  obtain ⟨h1, h2, h3, h4⟩ := lasersVsEnemies_spec env es L ctr
  refine ⟨h1, h2, lasersVsEnemies_split env es L ctr, h4, ?_⟩
  intro e2 he2 e3 he3 hEq
  have hnd : (((lasersVsEnemies env es L ctr).enemies ++
      (lasersVsEnemies env es L ctr).destroyed).map Enemy.id).Nodup :=
    (List.Perm.nodup_iff h3).mpr hn
  rw [List.map_append] at hnd
  obtain ⟨-, -, hdisj⟩ := List.nodup_append.mp hnd
  exact hdisj (List.mem_map_of_mem Enemy.id he3)
    (hEq ▸ List.mem_map_of_mem Enemy.id he2)

/-- Concrete enemy for the C4 witness: two laser hits bring health 10 to
0, destroying it. -/
def c4Enemy : Enemy :=
  { id := "e4", position := ⟨50, 50⟩, velocity := ⟨0, 0⟩, radius := 15,
    type := EnemyType.Meteor, health := 10, maxHealth := 10, rotation := none }

/-- First overlapping player laser for the C4 witness. -/
def c4LaserA : Laser := ⟨"la", ⟨50, 50⟩, ⟨0, 0⟩, 2, true⟩

/-- Second overlapping player laser for the C4 witness. -/
def c4LaserB : Laser := ⟨"lb", ⟨50, 50⟩, ⟨0, 0⟩, 2, true⟩

/-- Concrete environment for the C4 witness. -/
def c4Env : Env :=
  { deltaTime := 16, keys := [], now := 0, playerLaserId := "pl", typeRoll := 0,
    radiusRoll := 0, sideRoll := 0, posRoll := 0, velRollX := 0, velRollY := 0,
    enemyId := "e1", fireRoll := fun _ => 1, laserId := fun _ => "el",
    prand := fun _ => (0, 0, 0, 0), pid := fun _ => "pp",
    trand := fun _ => (0, 0, 0, 0), tid := fun _ => "tp" }

/-- Witness instantiating the destruction-score theorem at a concrete
enemy destroyed by two player lasers. -/
theorem laserKillScore_witness :
    (([c4Enemy].map Enemy.id).Nodup) ∧
    (lasersVsEnemies c4Env [c4Enemy] [c4LaserA, c4LaserB] 0).scoreDelta =
      (((lasersVsEnemies c4Env [c4Enemy] [c4LaserA, c4LaserB] 0).destroyed).map
        (fun e => ((⌊e.maxHealth * 5⌋ : ℤ) : ℝ))).sum ∧
    (lasersVsEnemies c4Env [c4Enemy] [c4LaserA, c4LaserB] 0).enemies.length +
      (lasersVsEnemies c4Env [c4Enemy] [c4LaserA, c4LaserB] 0).destroyed.length = 1 :=
  ⟨by simp,
   (laserKillScore c4Env [c4Enemy] [c4LaserA, c4LaserB] 0 (by simp)).1,
   (laserKillScore c4Env [c4Enemy] [c4LaserA, c4LaserB] 0 (by simp)).2.2.1⟩

/-! ## C7: player death and the deferred GameOver -/

/-- C7: in a tick whose damage resolution leaves the player at health ≤ 0,
the player entity is removed within that same tick, the game status is
unchanged at the end of the tick (still Playing when the tick ran during
Playing), and the GameOver transition is only scheduled, with the fixed
1000 ms delay. -/
theorem deathDelay (env : Env) (width height : ℝ) (s : GameState) (p : Player)
    (hpd : (preDeath env width height (initTS s)).player = some p)
    (hdead : p.health ≤ 0) :
    (updateAndDraw env width height s).1.player = none ∧
    (updateAndDraw env width height s).1.status = s.status ∧
    (s.status = GameStatus.Playing →
      (updateAndDraw env width height s).1.status = GameStatus.Playing) ∧
    Cue.gameOverScheduled 1000 ∈ (updateAndDraw env width height s).2 := by
  have hstatus : (updateAndDraw env width height s).1.status = s.status := rfl
  refine ⟨?_, hstatus, fun h => by rw [hstatus, h], ?_⟩
  · show (deathPhase env (preDeath env width height (initTS s))).player = none
    unfold deathPhase
    rw [hpd]
    dsimp only
    rw [if_pos hdead]
  · show Cue.gameOverScheduled 1000 ∈
      (deathPhase env (preDeath env width height (initTS s))).cues
    unfold deathPhase
    rw [hpd]
    dsimp only
    rw [if_pos hdead]
    dsimp only
    exact List.mem_append_right _ (by simp)

/-- Concrete dead player (health already ≤ 0 entering the tick) for the
C7 witness. -/
def c7Player : Player :=
  { id := "player", position := ⟨100, 100⟩, velocity := ⟨0, 0⟩, radius := 10,
    health := -5, maxHealth := 100, rotation := 0 }

/-- Concrete state for the C7 witness. -/
def c7State : GameState :=
  { player := some c7Player, enemies := [], lasers := [], particles := [], score := 0,
    status := GameStatus.Playing, lastShotTime := 0 }

/-- Concrete environment for the C7 witness. -/
def c7Env : Env :=
  { deltaTime := 16, keys := [], now := 0, playerLaserId := "pl", typeRoll := 0,
    radiusRoll := 0, sideRoll := 0, posRoll := 0, velRollX := 0, velRollY := 0,
    enemyId := "e1", fireRoll := fun _ => 1, laserId := fun _ => "el",
    prand := fun _ => (0, 0, 0, 0), pid := fun _ => "pp",
    trand := fun _ => (0, 0, 0, 0), tid := fun _ => "tp" }

/-- The meteor spawned during the C7 tick from the all-zero samples. -/
def c7Meteor : Enemy :=
  { id := "e1", position := ⟨0, -15⟩, velocity := ⟨-1, -1⟩, radius := 15,
    type := EnemyType.Meteor, health := 15/2, maxHealth := 15/2, rotation := none }

/-- Working state of the C7 tick right before the death check. -/
def c7TS : TS := ⟨some c7Player, [c7Meteor], [], [], 0, 0, [], 0⟩

/-- Evaluation of the C7 tick up to the death check: the dead player is
still present there. -/
lemma c7_pre : preDeath c7Env 200 200 (initTS c7State) = c7TS := by
  have p1 : playerPhase c7Env 200 200 (initTS c7State) = initTS c7State := by
    norm_num [playerPhase, handlePlayerControls, initTS, c7State, c7Player, c7Env,
      Player.updatePos, updatePosition, Player.obj, Real.sqrt_zero,
      List.contains, List.elem]
  have p2 : laserPhase 200 200 (initTS c7State) = initTS c7State := rfl
  have p3 : particlePhase c7Env 200 200 (initTS c7State) = initTS c7State := rfl
  have p4 : enemyMovePhase 200 200 (initTS c7State) = initTS c7State := rfl
  have p5 : spawnPhase c7Env 200 200 (initTS c7State) = c7TS := by
    norm_num [spawnPhase, spawnEnemy, randomBetween, initTS, c7State, c7Env, c7TS,
      c7Meteor, Int.floor_zero]
  have p6 : aiPhase c7Env c7TS = c7TS := by
    norm_num [aiPhase, aiGo, aiStep, c7TS, c7Meteor, c7Env]
  have p7 : laserEnemyPhase c7Env c7TS = c7TS := by
    norm_num [laserEnemyPhase, lasersVsEnemies, enemySweep, c7TS, c7Meteor]
  have hnc : ¬checkCollision c7Player.obj c7Meteor.obj := by
    rw [checkCollision_iff]
    norm_num [Player.obj, Enemy.obj, c7Player, c7Meteor]
  have hfind : c7TS.enemies.find?
      (fun e => decide (checkCollision c7Player.obj e.obj)) = none := by
    show List.find? _ [c7Meteor] = none
    rw [List.find?_cons_of_neg _ (by simp [hnc])]
    rfl
  have p8 : playerVsEnemiesPhase c7Env c7TS = c7TS := by
    unfold playerVsEnemiesPhase
    rw [show c7TS.player = some c7Player from rfl]
    dsimp only
    rw [hfind]
  have p9 : lasersVsPlayerPhase c7Env c7TS = c7TS := by
    unfold lasersVsPlayerPhase
    rw [show c7TS.player = some c7Player from rfl]
    dsimp only
    rw [show playerLaserSweep c7Env c7TS.lasers c7Player c7TS.pctr =
      (c7Player, [], [], 0) from rfl]
    rfl
  unfold preDeath
  rw [p1, p2, p3, p4, p5, p6, p7, p8, p9]

/-- Witness instantiating the death-delay theorem on the evaluated C7
tick. -/
theorem deathDelay_witness :
    (preDeath c7Env 200 200 (initTS c7State)).player = some c7Player ∧
    c7Player.health ≤ 0 ∧
    (updateAndDraw c7Env 200 200 c7State).1.player = none ∧
    (updateAndDraw c7Env 200 200 c7State).1.status = c7State.status ∧
    Cue.gameOverScheduled 1000 ∈ (updateAndDraw c7Env 200 200 c7State).2 :=
  ⟨by rw [c7_pre]; rfl, by norm_num [c7Player],
   (deathDelay c7Env 200 200 c7State c7Player (by rw [c7_pre]; rfl) (by norm_num [c7Player])).1,
   (deathDelay c7Env 200 200 c7State c7Player (by rw [c7_pre]; rfl) (by norm_num [c7Player])).2.1,
   (deathDelay c7Env 200 200 c7State c7Player (by rw [c7_pre]; rfl) (by norm_num [c7Player])).2.2.2⟩

/-- Witness instantiating the amended-claim theorem at concrete inputs. -/
theorem prunedBeforeUpdate_witness :
    (∀ l ∈ pruneLasers 200 100 [c1WitLaser],
      0 < l.position.x ∧ l.position.x < 200 ∧ 0 < l.position.y ∧ l.position.y < 100) ∧
    (∀ pt ∈ pruneParticles [c1WitParticle], 0 < pt.life) :=
  ⟨(prunedBeforeUpdate 200 100 [c1WitLaser] [c1WitParticle] c1Env (initTS c1State)).1,
   (prunedBeforeUpdate 200 100 [c1WitLaser] [c1WitParticle] c1Env (initTS c1State)).2.1⟩

end



